import Mathlib

/-!
Verification of the Sehat health-surveillance backend (query/storage layer and
route handlers), shallowly embedded in Lean 4.

The embedding models the relational tables as Lean lists of records, the
drizzle-orm queries of `server/storage.ts` as pure list operations, and the
Express route handlers of the routes file as pure functions from a request and
a database state to an HTTP response and a new state.  Server-assigned values
(uuid primary keys, `defaultNow()` timestamps) are passed in explicitly as
parameters.  SQL `LIKE '%x%'` / `ILIKE '%x%'` conditions are modelled as
(case-sensitive / case-insensitive) substring containment, which is exact for
filter strings containing no SQL wildcard characters.  `ORDER BY c DESC` is
modelled as a merge sort on the relevant numeric key.
-/

/-! ### Basic string operations used by the query layer -/

/-- Case-sensitive substring containment: the meaning of the SQL condition
`col LIKE '%needle%'` for a wildcard-free needle. -/
def strContains (hay needle : String) : Bool :=
  decide (needle.data <:+: hay.data)

/-- Lower-case every character of a string (used to model `ILIKE`). -/
def lowerStr (s : String) : String :=
  String.mk (s.data.map Char.toLower)

/-- Case-insensitive substring containment: the meaning of the SQL condition
`col ILIKE '%needle%'` for a wildcard-free needle. -/
def ilikeContains (hay needle : String) : Bool :=
  strContains (lowerStr hay) (lowerStr needle)

/-- JavaScript truthiness of an optional string value: `undefined` and the
empty string are falsy.  The storage layer guards every filter condition with
this test (`if (filters.x) ...`). -/
def truthyS : Option String → Bool
  | none => false
  | some s => !(s == "")

/-- JavaScript truthiness of an optional number: `undefined` and `0` are
falsy (used for the `limit` and `offset` filters). -/
def truthyN : Option Nat → Bool
  | none => false
  | some n => !(n == 0)

/-! ### Decimal formatting

`createPatient` generates the human-readable id with
`"MW" + (count + 1).toString().padStart(6, '0')`.  We embed JavaScript's
`Number.prototype.toString` (base 10) with a structurally recursive digit
function (fuel-based so that the kernel can evaluate it), and `padStart`
literally. -/

/-- The character for one decimal digit (`0 ≤ d ≤ 9`). -/
def decDigitChar (d : Nat) : Char := Char.ofNat (48 + d)

/-- Fuel-driven decimal digit list, most significant digit first; the fuel
only bounds the recursion depth.  `decDigitsF f 0 = []`. -/
def decDigitsF : Nat → Nat → List Char
  | 0, _ => []
  | _ + 1, 0 => []
  | f + 1, n + 1 => decDigitsF f ((n + 1) / 10) ++ [decDigitChar ((n + 1) % 10)]

/-- Decimal digit list of `n`, most significant first (`[]` for `0`).  The
fuel `n` is always sufficient because the argument strictly decreases. -/
def decDigits (n : Nat) : List Char := decDigitsF n n

/-- JavaScript `n.toString()` for a natural number: its decimal numeral. -/
def decRepr (n : Nat) : String :=
  if n = 0 then "0" else String.mk (decDigits n)

/-- JavaScript `s.padStart(len, c)`: left-pad `s` with `c` up to length
`len`; a string already at least that long is returned unchanged. -/
def padStart (s : String) (len : Nat) (c : Char) : String :=
  String.mk (List.replicate (len - s.length) c ++ s.data)

/-- Numeric value of a decimal digit character. -/
def decDigitVal (c : Char) : Nat := c.toNat - 48

/-- Decimal decoding of a digit list, most significant first.  Leading zeros
do not change the value. -/
def decodeDigits (l : List Char) : Nat :=
  l.foldl (fun acc c => 10 * acc + decDigitVal c) 0

/-! ### The generated human-readable patient identifier

`storage.ts` line 164:
`const patientId = ` + "MW" + `(patientCount + 1).toString().padStart(6, '0')`. -/

/-- The patient id generated when the table currently holds `count` rows. -/
def genPatientId (count : Nat) : String :=
  "MW" ++ padStart (decRepr (count + 1)) 6 '0'

/-- Decode a generated id back to the encoded number: skip the two-letter
jurisdiction code and read the remaining characters as a decimal numeral. -/
def decodeId (s : String) : Nat := decodeDigits (s.data.drop 2)

/-! ### `ORDER BY key DESC` -/

/-- Comparator for a descending sort on a numeric key. -/
def byKeyDesc {α : Type} (key : α → Nat) (a b : α) : Bool :=
  decide (key b ≤ key a)

/-- Model of `ORDER BY key DESC`: a merge sort with the descending
comparator. -/
def sortDesc {α : Type} (key : α → Nat) (l : List α) : List α :=
  l.mergeSort (byKeyDesc key)

/-! ### Entity model (shared/schema.ts)

Each structure mirrors one `pgTable` column list.  Nullable columns (those
without `.notNull()`) are `Option`-typed; enum columns get their own
inductive type; `timestamp` columns are modelled as naturals. -/

inductive Gender where
  | male
  | female
  | other
deriving DecidableEq

inductive HealthStatus where
  | healthy
  | under_treatment
  | critical
  | recovered
deriving DecidableEq

inductive DiseaseType where
  | infectious
  | non_infectious
  | chronic
  | acute
deriving DecidableEq

inductive AlertSeverity where
  | low
  | medium
  | high
  | critical
deriving DecidableEq

/-- The string stored in the `health_status` enum column. -/
def healthStatusStr : HealthStatus → String
  | .healthy => "healthy"
  | .under_treatment => "under_treatment"
  | .critical => "critical"
  | .recovered => "recovered"

/-- Parse a string into the `health_status` enum, as the schema validator
does for enum columns. -/
def strToHealthStatus : String → Option HealthStatus
  | "healthy" => some .healthy
  | "under_treatment" => some .under_treatment
  | "critical" => some .critical
  | "recovered" => some .recovered
  | _ => none

/-- Parse a string into the `gender` enum. -/
def strToGender : String → Option Gender
  | "male" => some .male
  | "female" => some .female
  | "other" => some .other
  | _ => none

/-- Row of the `users` table. -/
structure User where
  id : String
  username : String
  password : String
  name : String
  role : String
  createdAt : Nat
deriving DecidableEq

/-- Row of the `patients` table. -/
structure Patient where
  id : String
  patientId : String
  name : String
  age : Nat
  gender : Gender
  phone : Option String
  address : Option String
  district : String
  workplace : Option String
  employerName : Option String
  emergencyContact : Option String
  emergencyPhone : Option String
  healthStatus : HealthStatus
  registeredAt : Nat
  lastCheckup : Option String
  registeredBy : Option String
deriving DecidableEq

/-- Row of the `health_records` table. -/
structure HealthRecord where
  id : String
  patientId : String
  checkupDate : String
  symptoms : Option String
  diagnosis : Option String
  treatment : Option String
  medications : Option String
  notes : Option String
  followupRequired : Option Bool
  followupDate : Option String
  createdBy : Option String
  createdAt : Nat
deriving DecidableEq

/-- Row of the `diseases` table (the column named `type` is rendered here as
`dtype` because `type` is reserved in Lean). -/
structure Disease where
  id : String
  name : String
  dtype : DiseaseType
  description : Option String
  symptoms : Option String
  infectious : Option Bool
  reportable : Option Bool
deriving DecidableEq

/-- Row of the `disease_cases` table. -/
structure DiseaseCase where
  id : String
  patientId : String
  diseaseId : String
  diagnosisDate : String
  status : String
  severity : String
  notes : Option String
  reportedAt : Nat
  reportedBy : Option String
deriving DecidableEq

/-- Row of the `health_alerts` table. -/
structure HealthAlert where
  id : String
  title : String
  description : String
  severity : AlertSeverity
  district : Option String
  diseaseId : Option String
  affectedCount : Option Nat
  isActive : Option Bool
  createdAt : Nat
  createdBy : Option String
deriving DecidableEq

/-! ### Insert shapes (drizzle-zod `createInsertSchema(...).omit(...)`)

`insertPatientSchema` omits `id`, `patientId` and `registeredAt`; columns
with database defaults (`healthStatus`) may be omitted by the client, in
which case the stored row receives the default. -/

/-- A validated Patient-insert payload (the `InsertPatient` type). -/
structure InsertPatient where
  name : String
  age : Nat
  gender : Gender
  phone : Option String := none
  address : Option String := none
  district : String
  workplace : Option String := none
  employerName : Option String := none
  emergencyContact : Option String := none
  emergencyPhone : Option String := none
  healthStatus : HealthStatus := .healthy
  lastCheckup : Option String := none
  registeredBy : Option String := none
deriving DecidableEq

/-! ### Query/storage layer (server/storage.ts)

Tables are lists of rows; an SQL `INSERT` appends.  Each operation carries
the table(s) it touches as explicit arguments. -/

/-- `getPatientsCount`: unfiltered `count(*)` over `patients`. -/
def getPatientsCount (db : List Patient) : Nat := db.length

/-- `createPatient`: reads the current count, generates the sequential
human-readable id, and inserts the payload together with it.  `freshId` is
the uuid and `now` the timestamp the database would assign. -/
def createPatient (data : InsertPatient) (db : List Patient)
    (freshId : String) (now : Nat) : Patient × List Patient :=
  let patientCount := getPatientsCount db
  let pid := genPatientId patientCount
  let p : Patient :=
    { id := freshId
      patientId := pid
      name := data.name
      age := data.age
      gender := data.gender
      phone := data.phone
      address := data.address
      district := data.district
      workplace := data.workplace
      employerName := data.employerName
      emergencyContact := data.emergencyContact
      emergencyPhone := data.emergencyPhone
      healthStatus := data.healthStatus
      registeredAt := now
      lastCheckup := data.lastCheckup
      registeredBy := data.registeredBy }
  (p, db ++ [p])

/-- The filter object accepted by `getPatients`. -/
structure PatientsFilters where
  district : Option String := none
  healthStatus : Option String := none
  search : Option String := none
  limit : Option Nat := none
  offset : Option Nat := none
deriving DecidableEq

/-- The conjunction of the `WHERE` conditions `getPatients` pushes: each is
guarded by JavaScript truthiness of the corresponding filter field. -/
def patientCond (f : PatientsFilters) (p : Patient) : Bool :=
  (!truthyS f.district || strContains p.district (f.district.getD ""))
  && (!truthyS f.healthStatus || (healthStatusStr p.healthStatus == f.healthStatus.getD ""))
  && (!truthyS f.search
      || (ilikeContains p.name (f.search.getD "")
          || ilikeContains p.patientId (f.search.getD "")))

/-- `getPatients`: filter, order by `registeredAt` descending, then apply
`OFFSET`/`LIMIT` when truthy. -/
def getPatients (f : PatientsFilters) (db : List Patient) : List Patient :=
  let filtered := db.filter (patientCond f)
  let ordered := sortDesc Patient.registeredAt filtered
  let afterOffset := if truthyN f.offset then ordered.drop (f.offset.getD 0) else ordered
  if truthyN f.limit then afterOffset.take (f.limit.getD 0) else afterOffset

/-- `getPatientById`: single-row lookup by primary key. -/
def getPatientById (id : String) (db : List Patient) : Option Patient :=
  db.find? (fun p => p.id == id)

/-- `getUser`: single-row lookup by primary key. -/
def getUser (id : String) (us : List User) : Option User :=
  us.find? (fun u => u.id == id)

/-- `getUserByUsername`: single-row lookup by the unique username. -/
def getUserByUsername (username : String) (us : List User) : Option User :=
  us.find? (fun u => u.username == username)

/-- `getHealthRecordById`: single-row lookup by primary key. -/
def getHealthRecordById (id : String) (rs : List HealthRecord) : Option HealthRecord :=
  rs.find? (fun r => r.id == id)

/-- A client-supplied update for `updatePatient` (TypeScript
`Updates<Patient>` with every column key optional); `set` merges the present
fields into the row. -/
structure PatientUpdate where
  id : Option String := none
  patientId : Option String := none
  name : Option String := none
  age : Option Nat := none
  gender : Option Gender := none
  phone : Option (Option String) := none
  address : Option (Option String) := none
  district : Option String := none
  workplace : Option (Option String) := none
  employerName : Option (Option String) := none
  emergencyContact : Option (Option String) := none
  emergencyPhone : Option (Option String) := none
  healthStatus : Option HealthStatus := none
  registeredAt : Option Nat := none
  lastCheckup : Option (Option String) := none
  registeredBy : Option (Option String) := none
deriving DecidableEq

/-- Merge an update into a row (`UPDATE ... SET`): a present field replaces
the column, an absent one leaves it unchanged. -/
def applyPatientUpdate (u : PatientUpdate) (p : Patient) : Patient :=
  { id := u.id.getD p.id
    patientId := u.patientId.getD p.patientId
    name := u.name.getD p.name
    age := u.age.getD p.age
    gender := u.gender.getD p.gender
    phone := u.phone.getD p.phone
    address := u.address.getD p.address
    district := u.district.getD p.district
    workplace := u.workplace.getD p.workplace
    employerName := u.employerName.getD p.employerName
    emergencyContact := u.emergencyContact.getD p.emergencyContact
    emergencyPhone := u.emergencyPhone.getD p.emergencyPhone
    healthStatus := u.healthStatus.getD p.healthStatus
    registeredAt := u.registeredAt.getD p.registeredAt
    lastCheckup := u.lastCheckup.getD p.lastCheckup
    registeredBy := u.registeredBy.getD p.registeredBy }

/-- `updatePatient`: `UPDATE patients SET updates WHERE id = id RETURNING *`
followed by destructuring the returned row list.  When no row matches, the
returned list is empty and the destructured value is `undefined` (here
`none`); no exception is raised. -/
def updatePatient (id : String) (u : PatientUpdate) (db : List Patient) :
    Option Patient × List Patient :=
  let db2 := db.map (fun p => if p.id == id then applyPatientUpdate u p else p)
  ((db.find? (fun p => p.id == id)).map (applyPatientUpdate u), db2)

/-- The denormalized row shape returned by `getDiseaseCases` (the selected
columns of `disease_cases` plus the left-joined patient name/district and
disease name). -/
structure DiseaseCaseRow where
  id : String
  patientId : String
  diseaseId : String
  diagnosisDate : String
  status : String
  severity : String
  notes : Option String
  reportedAt : Nat
  patientName : Option String
  patientDistrict : Option String
  diseaseName : Option String
deriving DecidableEq

/-- Left-join one case with its (unique, if any) patient and disease rows; a
dangling reference yields `none` in the three denormalized columns. -/
def joinCaseRow (ps : List Patient) (ds : List Disease) (c : DiseaseCase) :
    DiseaseCaseRow :=
  let pat := ps.find? (fun p => p.id == c.patientId)
  let dis := ds.find? (fun d => d.id == c.diseaseId)
  { id := c.id
    patientId := c.patientId
    diseaseId := c.diseaseId
    diagnosisDate := c.diagnosisDate
    status := c.status
    severity := c.severity
    notes := c.notes
    reportedAt := c.reportedAt
    patientName := pat.map Patient.name
    patientDistrict := pat.map Patient.district
    diseaseName := dis.map Disease.name }

/-- The filter object accepted by `getDiseaseCases`. -/
structure CaseFilters where
  patientId : Option String := none
  diseaseId : Option String := none
  district : Option String := none
  status : Option String := none
deriving DecidableEq

/-- The conjunction of the `WHERE` conditions `getDiseaseCases` pushes,
evaluated on a joined row; the district condition tests the left-joined
patient district, so it is false on a SQL `NULL` (a dangling reference). -/
def caseCond (f : CaseFilters) (row : DiseaseCaseRow) : Bool :=
  (!truthyS f.patientId || (row.patientId == f.patientId.getD ""))
  && (!truthyS f.diseaseId || (row.diseaseId == f.diseaseId.getD ""))
  && (!truthyS f.district
      || row.patientDistrict.elim false (fun d => strContains d (f.district.getD "")))
  && (!truthyS f.status || (row.status == f.status.getD ""))

/-- `getDiseaseCases`: left-join every case, filter, order by `reportedAt`
descending. -/
def getDiseaseCases (f : CaseFilters) (ps : List Patient) (ds : List Disease)
    (cs : List DiseaseCase) : List DiseaseCaseRow :=
  sortDesc DiseaseCaseRow.reportedAt
    ((cs.map (joinCaseRow ps ds)).filter (caseCond f))

/-- One `{name, count}` aggregation row of `getDiseaseStats`. -/
structure DiseaseStat where
  name : String
  count : Nat
deriving DecidableEq

/-- The aggregation row for one disease: its name together with the number
of cases whose `diseaseId` references it (`count(disease_cases.id)` over the
left join counts exactly the matching case rows, and `0` when only the
null-extended row exists). -/
def diseaseStatOf (cs : List DiseaseCase) (d : Disease) : DiseaseStat :=
  { name := d.name, count := (cs.filter (fun c => c.diseaseId == d.id)).length }

/-- `getDiseaseStats`: per-disease case counts (group by the disease primary
key), ordered by count descending. -/
def getDiseaseStats (ds : List Disease) (cs : List DiseaseCase) : List DiseaseStat :=
  sortDesc DiseaseStat.count (ds.map (diseaseStatOf cs))

/-- `getHealthAlerts`: all alerts, restricted to `isActive = true` when
`activeOnly` holds, ordered by `createdAt` descending. -/
def getHealthAlerts (activeOnly : Bool) (db : List HealthAlert) : List HealthAlert :=
  let base := if activeOnly then db.filter (fun a => a.isActive == some true) else db
  sortDesc HealthAlert.createdAt base

/-! ### Schema validation (zod `insertPatientSchema.parse`)

A request body is modelled with one optional slot per JSON key the schema
could see; `none` means the key is absent.  Values are assumed to be of the
column's scalar type (zod type errors other than enum membership are not in
scope of the claims).  Zod object schemas strip unknown keys, so the three
omitted system keys (`id`, `patientId`, `registeredAt`) are carried in the
raw shape but never inspected by the validator. -/

/-- An untyped Patient POST body. -/
structure RawPatient where
  id : Option String := none
  patientId : Option String := none
  name : Option String := none
  age : Option Nat := none
  gender : Option String := none
  phone : Option String := none
  address : Option String := none
  district : Option String := none
  workplace : Option String := none
  employerName : Option String := none
  emergencyContact : Option String := none
  emergencyPhone : Option String := none
  healthStatus : Option String := none
  registeredAt : Option Nat := none
  lastCheckup : Option String := none
  registeredBy : Option String := none
deriving DecidableEq

/-- One entry of a zod `error.errors` list: the violated field and the
reason. -/
structure FieldError where
  path : String
  message : String
deriving DecidableEq

/-- All violations `insertPatientSchema` reports for a body: every missing
required column and every invalid enum value, not just the first. -/
def patientFieldErrors (r : RawPatient) : List FieldError :=
  (if r.name.isNone then [{ path := "name", message := "Required" }] else [])
  ++ (if r.age.isNone then [{ path := "age", message := "Required" }] else [])
  ++ (match r.gender with
      | none => [{ path := "gender", message := "Required" }]
      | some g =>
        if (strToGender g).isNone then
          [{ path := "gender", message := "Invalid enum value" }]
        else [])
  ++ (if r.district.isNone then [{ path := "district", message := "Required" }] else [])
  ++ (match r.healthStatus with
      | none => []
      | some h =>
        if (strToHealthStatus h).isNone then
          [{ path := "healthStatus", message := "Invalid enum value" }]
        else [])

/-- `insertPatientSchema.parse`: either the typed insert value (with the
database default for an omitted `healthStatus`), or the full list of field
errors. -/
def parseInsertPatient (r : RawPatient) : Except (List FieldError) InsertPatient :=
  let errs := patientFieldErrors r
  if errs.isEmpty then
    .ok
      { name := r.name.getD ""
        age := r.age.getD 0
        gender := (r.gender.bind strToGender).getD Gender.male
        phone := r.phone
        address := r.address
        district := r.district.getD ""
        workplace := r.workplace
        employerName := r.employerName
        emergencyContact := r.emergencyContact
        emergencyPhone := r.emergencyPhone
        healthStatus := (r.healthStatus.bind strToHealthStatus).getD HealthStatus.healthy
        lastCheckup := r.lastCheckup
        registeredBy := r.registeredBy }
  else .error errs

/-! ### Route handlers (server/routes.ts)

A handler maps a request and the database state to an HTTP response and the
new state.  `ApiBody` enumerates the JSON bodies the modelled routes can
produce; `empty` is the body Express sends for `res.json(undefined)`
(serialization of `undefined` produces no JSON text and the status stays
200). -/

inductive ApiBody where
  | patientBody (p : Patient)
  | msg (m : String)
  | invalid (m : String) (errs : List FieldError)
  | empty
deriving DecidableEq

/-- An HTTP response of a modelled route. -/
structure ApiResponse where
  status : Nat
  body : ApiBody
deriving DecidableEq

/-- `GET /api/patients/:id`: 404 with a message body when the lookup comes
back absent, 200 with the record otherwise. -/
def getPatientByIdRoute (id : String) (db : List Patient) : ApiResponse :=
  match getPatientById id db with
  | none => { status := 404, body := .msg "Patient not found" }
  | some p => { status := 200, body := .patientBody p }

/-- `POST /api/patients`: validate, then create; a `ZodError` maps to 400
with the error list and the storage layer is never reached. -/
def postPatientsRoute (raw : RawPatient) (db : List Patient)
    (freshId : String) (now : Nat) : ApiResponse × List Patient :=
  match parseInsertPatient raw with
  | .error es => ({ status := 400, body := .invalid "Invalid patient data" es }, db)
  | .ok data =>
    let r := createPatient data db freshId now
    ({ status := 201, body := .patientBody r.1 }, r.2)

/-- `PUT /api/patients/:id`: forwards the body to `updatePatient` and sends
the result with `res.json`; nothing on this path throws, so the catch-branch
returning 500 is unreachable and a missing id yields a 200 with an empty
body. -/
def putPatientRoute (id : String) (u : PatientUpdate) (db : List Patient) :
    ApiResponse × List Patient :=
  let r := updatePatient id u db
  ({ status := 200
     body := match r.1 with
       | some p => .patientBody p
       | none => .empty }, r.2)

/-- `GET /api/health-alerts`: the storage call receives
`activeOnly === 'true'`. -/
def getHealthAlertsRoute (activeOnly : Option String) (db : List HealthAlert) :
    List HealthAlert :=
  getHealthAlerts (activeOnly == some "true") db

/-! ### States reachable by the patient-creation workflow

Patients enter the table only through `createPatient` (no route deletes or
bulk-inserts rows), so the states relevant to the id-uniqueness claim are
those built from the empty table by repeated creations, with arbitrary
payloads, uuids and timestamps; `updatePatient` is excluded because it can
rewrite `patientId` itself (the claim speaks of generation-time
uniqueness). -/

inductive ReachablePatients : List Patient → Prop where
  | nil : ReachablePatients []
  | step (db : List Patient) (data : InsertPatient) (freshId : String) (now : Nat) :
      ReachablePatients db → ReachablePatients (createPatient data db freshId now).2

/-! ### Claim-side filter predicates

These restate the specification's description of the filters (each written
from the spec's words, to be compared with the conditions the code pushes):
a supplied district is a substring of the row's district, a supplied
healthStatus equals the row's value exactly, a supplied search term appears
case-insensitively in the name or the generated patient id; an omitted
filter imposes no constraint. -/

def claimPatientPred (f : PatientsFilters) (p : Patient) : Bool :=
  f.district.elim true (fun d => strContains p.district d)
  && f.healthStatus.elim true (fun s => healthStatusStr p.healthStatus == s)
  && f.search.elim true
      (fun s => ilikeContains p.name s || ilikeContains p.patientId s)

def claimCaseCond (f : CaseFilters) (row : DiseaseCaseRow) : Bool :=
  f.patientId.elim true (fun v => row.patientId == v)
  && f.diseaseId.elim true (fun v => row.diseaseId == v)
  && f.district.elim true
      (fun v => row.patientDistrict.elim false (fun d => strContains d v))
  && f.status.elim true (fun v => row.status == v)

/-! ### Concrete fixtures (used to instantiate the theorems) -/

def sampleInsert : InsertPatient :=
  { name := "Asha", age := 30, gender := Gender.female, district := "Kollam" }

def samplePatient : Patient :=
  { id := "a", patientId := "MW000001", name := "Asha", age := 30,
    gender := Gender.female, phone := none, address := none,
    district := "Kollam", workplace := none, employerName := none,
    emergencyContact := none, emergencyPhone := none,
    healthStatus := HealthStatus.healthy, registeredAt := 10,
    lastCheckup := none, registeredBy := none }

def samplePatientB : Patient :=
  { samplePatient with
    id := "b", patientId := "MW000002", name := "Binu",
    district := "Idukki", healthStatus := HealthStatus.critical,
    registeredAt := 20 }

def sampleFilters : PatientsFilters := { district := some "Kol" }

def sampleUpdate : PatientUpdate := { name := some "Chitra" }

def rawEmpty : RawPatient := {}

def rawValid : RawPatient :=
  { name := some "Asha", age := some 30, gender := some "female",
    district := some "Kollam" }

def sampleCase : DiseaseCase :=
  { id := "c1", patientId := "p-missing", diseaseId := "d-missing",
    diagnosisDate := "2024-01-01", status := "active", severity := "mild",
    notes := none, reportedAt := 7, reportedBy := none }

def sampleDisease : Disease :=
  { id := "d1", name := "Dengue", dtype := DiseaseType.infectious,
    description := none, symptoms := none, infectious := some true,
    reportable := some true }

def sampleAlert : HealthAlert :=
  { id := "al1", title := "Outbreak", description := "Dengue cluster",
    severity := AlertSeverity.high, district := some "Kollam",
    diseaseId := none, affectedCount := some 3, isActive := some true,
    createdAt := 5, createdBy := none }

def sampleAlertInactive : HealthAlert :=
  { sampleAlert with
    id := "al2"
    title := "Resolved"
    isActive := some false
    createdAt := 9 }

def sampleUser : User :=
  { id := "u1", username := "meera", password := "x", name := "Meera",
    role := "health_worker", createdAt := 1 }

def sampleRecord : HealthRecord :=
  { id := "r1", patientId := "a", checkupDate := "2024-02-02",
    symptoms := none, diagnosis := none, treatment := none,
    medications := none, notes := none, followupRequired := some false,
    followupDate := none, createdBy := none, createdAt := 3 }

/-! ### Theorems -/

/-! ### Fuel irrelevance and the unfolding equation for `decDigits` -/

theorem decDigitsF_zero (f : Nat) : decDigitsF f 0 = [] := by
  cases f <;> rfl

theorem decDigitsF_congr :
    ∀ f g n : Nat, n ≤ f → n ≤ g → decDigitsF f n = decDigitsF g n := by
  intro f
  induction f with
  | zero =>
    intro g n hf _
    have hn : n = 0 := Nat.le_zero.mp hf
    subst hn
    rw [decDigitsF_zero, decDigitsF_zero]
  | succ f ih =>
    intro g n hf hg
    match n, g with
    | 0, g => rw [decDigitsF_zero, decDigitsF_zero]
    | m + 1, g + 1 =>
      show decDigitsF f ((m + 1) / 10) ++ _ = decDigitsF g ((m + 1) / 10) ++ _
      have hlt : (m + 1) / 10 < m + 1 := Nat.div_lt_self (Nat.succ_pos m) (by decide)
      have h1 : (m + 1) / 10 ≤ f := Nat.le_of_lt_succ (Nat.lt_of_lt_of_le hlt hf)
      have h2 : (m + 1) / 10 ≤ g := Nat.le_of_lt_succ (Nat.lt_of_lt_of_le hlt hg)
      rw [ih g ((m + 1) / 10) h1 h2]

theorem decDigits_succ (m : Nat) :
    decDigits (m + 1) = decDigits ((m + 1) / 10) ++ [decDigitChar ((m + 1) % 10)] := by
  show decDigitsF m ((m + 1) / 10) ++ _ = decDigitsF ((m + 1) / 10) ((m + 1) / 10) ++ _
  have hlt : (m + 1) / 10 < m + 1 := Nat.div_lt_self (Nat.succ_pos m) (by decide)
  rw [decDigitsF_congr m ((m + 1) / 10) ((m + 1) / 10) (Nat.le_of_lt_succ hlt) (Nat.le_refl _)]

/-! ### Decoding inverts formatting -/

theorem decDigitVal_decDigitChar : ∀ d : Nat, d < 10 → decDigitVal (decDigitChar d) = d := by
  decide

theorem decDigitChar_isDigit : ∀ d : Nat, d < 10 → (decDigitChar d).isDigit = true := by
  decide

theorem foldl_decode_decDigits :
    ∀ n acc : Nat,
      (decDigits n).foldl (fun acc c => 10 * acc + decDigitVal c) acc
        = acc * 10 ^ (decDigits n).length + n := by
  intro n
  induction n using Nat.strong_induction_on with
  | _ n ih =>
    match n with
    | 0 => intro acc; simp [decDigits, decDigitsF]
    | m + 1 =>
      intro acc
      have hlt : (m + 1) / 10 < m + 1 := Nat.div_lt_self (Nat.succ_pos m) (by decide)
      rw [decDigits_succ, List.foldl_append, ih ((m + 1) / 10) hlt acc]
      have hmod : (m + 1) % 10 < 10 := Nat.mod_lt _ (by decide)
      simp only [List.foldl_cons, List.foldl_nil, List.length_append, List.length_cons,
        List.length_nil]
      rw [decDigitVal_decDigitChar _ hmod]
      have hdm : 10 * ((m + 1) / 10) + (m + 1) % 10 = m + 1 := Nat.div_add_mod (m + 1) 10
      have hpow : 10 ^ ((decDigits ((m + 1) / 10)).length + (0 + 1))
          = 10 ^ (decDigits ((m + 1) / 10)).length * 10 := by
        rw [Nat.zero_add, Nat.pow_succ]
      rw [hpow]
      set L := 10 ^ (decDigits ((m + 1) / 10)).length
      have hring : 10 * (acc * L + (m + 1) / 10) + (m + 1) % 10
          = acc * (L * 10) + (10 * ((m + 1) / 10) + (m + 1) % 10) := by ring
      rw [hring, hdm]

theorem decodeDigits_decDigits (n : Nat) : decodeDigits (decDigits n) = n := by
  have h := foldl_decode_decDigits n 0
  simpa [decodeDigits] using h

theorem decodeDigits_replicate_zero (m : Nat) (l : List Char) :
    decodeDigits (List.replicate m '0' ++ l) = decodeDigits l := by
  induction m with
  | zero => rfl
  | succ k ih =>
    have : List.replicate (k + 1) '0' ++ l = '0' :: (List.replicate k '0' ++ l) := by
      simp [List.replicate_succ]
    rw [this]
    simpa [decodeDigits, decDigitVal] using ih

theorem data_append (s t : String) : (s ++ t).data = s.data ++ t.data := rfl

theorem decDigits_ne_nil (n : Nat) (h : n ≠ 0) : decDigits n ≠ [] := by
  match n with
  | m + 1 =>
    rw [decDigits_succ]
    simp

theorem decodeId_genPatientId (count : Nat) : decodeId (genPatientId count) = count + 1 := by
  have h1 : decRepr (count + 1) = String.mk (decDigits (count + 1)) := by
    simp [decRepr]
  have h2 : (genPatientId count).data
      = 'M' :: 'W' :: (List.replicate (6 - (decDigits (count + 1)).length) '0'
          ++ decDigits (count + 1)) := by
    simp [genPatientId, data_append, h1, padStart, String.length]
  simp only [decodeId, h2, List.drop_succ_cons, List.drop_zero]
  rw [decodeDigits_replicate_zero, decodeDigits_decDigits]

theorem genPatientId_injective (a b : Nat) (h : genPatientId a = genPatientId b) : a = b := by
  have := congrArg decodeId h
  rw [decodeId_genPatientId, decodeId_genPatientId] at this
  omega

theorem decDigits_length_le :
    ∀ e n : Nat, n < 10 ^ e → (decDigits n).length ≤ e := by
  intro e n
  induction n using Nat.strong_induction_on generalizing e with
  | _ n ih =>
    match n, e with
    | 0, e => intro _; simp [decDigits, decDigitsF_zero]
    | m + 1, 0 => intro h; omega
    | m + 1, e + 1 =>
      intro h
      have hlt : (m + 1) / 10 < m + 1 := Nat.div_lt_self (Nat.succ_pos m) (by decide)
      have hdiv : (m + 1) / 10 < 10 ^ e := by
        apply (Nat.div_lt_iff_lt_mul (by decide : 0 < 10)).mpr
        calc m + 1 < 10 ^ (e + 1) := h
          _ = 10 ^ e * 10 := by rw [Nat.pow_succ]
      have hih := ih ((m + 1) / 10) hlt e hdiv
      rw [decDigits_succ]
      simp only [List.length_append, List.length_cons, List.length_nil]
      omega

theorem decDigits_all_digit :
    ∀ n : Nat, ∀ c ∈ decDigits n, c.isDigit = true := by
  intro n
  induction n using Nat.strong_induction_on with
  | _ n ih =>
    match n with
    | 0 => intro c hc; simp [decDigits, decDigitsF_zero] at hc
    | m + 1 =>
      intro c hc
      rw [decDigits_succ] at hc
      rcases List.mem_append.mp hc with h | h
      · exact ih ((m + 1) / 10) (Nat.div_lt_self (Nat.succ_pos m) (by decide)) c h
      · have : c = decDigitChar ((m + 1) % 10) := by simpa using h
        subst this
        exact decDigitChar_isDigit _ (Nat.mod_lt _ (by decide))

/-- Below one million patients the generated id is exactly the two-letter
code followed by six digit characters. -/
theorem genPatientId_shape (count : Nat) (h : count + 1 < 10 ^ 6) :
    ((genPatientId count).data.drop 2).length = 6
    ∧ (∀ c ∈ (genPatientId count).data.drop 2, c.isDigit = true)
    ∧ decodeDigits ((genPatientId count).data.drop 2) = count + 1
    ∧ (genPatientId count).data
        = 'M' :: 'W' :: (genPatientId count).data.drop 2 := by
  have h1 : decRepr (count + 1) = String.mk (decDigits (count + 1)) := by
    simp [decRepr]
  have h2 : (genPatientId count).data
      = 'M' :: 'W' :: (List.replicate (6 - (decDigits (count + 1)).length) '0'
          ++ decDigits (count + 1)) := by
    simp [genPatientId, data_append, h1, padStart, String.length]
  have hlen : (decDigits (count + 1)).length ≤ 6 := decDigits_length_le 6 (count + 1) h
  have hdrop : (genPatientId count).data.drop 2
      = List.replicate (6 - (decDigits (count + 1)).length) '0' ++ decDigits (count + 1) := by
    rw [h2]; rfl
  refine ⟨?_, ?_, ?_, ?_⟩
  · rw [hdrop]
    simp only [List.length_append, List.length_replicate]
    omega
  · intro c hc
    rw [hdrop] at hc
    rcases List.mem_append.mp hc with hrep | hdig
    · have : c = '0' := List.eq_of_mem_replicate hrep
      subst this; rfl
    · exact decDigits_all_digit (count + 1) c hdig
  · rw [hdrop, decodeDigits_replicate_zero, decodeDigits_decDigits]
  · rw [hdrop, h2]

theorem sortDesc_perm {α : Type} (key : α → Nat) (l : List α) :
    (sortDesc key l).Perm l :=
  List.mergeSort_perm l (byKeyDesc key)

theorem sortDesc_sorted {α : Type} (key : α → Nat) (l : List α) :
    List.Pairwise (fun a b => key b ≤ key a) (sortDesc key l) := by
  have h := @List.sorted_mergeSort _ (byKeyDesc key)
    (fun a b c hab hbc => by
      simp only [byKeyDesc, decide_eq_true_eq] at *
      omega)
    (fun a b => by
      simp only [byKeyDesc, Bool.or_eq_true, decide_eq_true_eq]
      omega)
    l
  exact h.imp (fun hab => by simpa [byKeyDesc] using hab)

theorem sortDesc_mem {α : Type} (key : α → Nat) (l : List α) (a : α) :
    a ∈ sortDesc key l ↔ a ∈ l :=
  (sortDesc_perm key l).mem_iff

/-- A truthiness-guarded condition coincides with the optional condition of
the spec whenever a supplied filter string is nonempty. -/
theorem guard_eq_elim (o : Option String) (h : ∀ s, o = some s → s ≠ "")
    (test : String → Bool) :
    (!truthyS o || test (o.getD "")) = o.elim true test := by
  cases o with
  | none => rfl
  | some s =>
    have hne : s ≠ "" := h s rfl
    have hb : (s == "") = false := beq_eq_false_iff_ne.mpr hne
    simp [truthyS, hb]

/-- Invariant of the creation workflow: every row's generated id is
`genPatientId k` for some earlier count `k`. -/
theorem reachable_patientId_indexed (db : List Patient) (h : ReachablePatients db) :
    ∀ p ∈ db, ∃ k, k < db.length ∧ p.patientId = genPatientId k := by
  induction h with
  | nil => intro p hp; simp at hp
  | step db data freshId now hdb ih =>
    intro p hp
    simp only [createPatient, getPatientsCount] at hp ⊢
    rcases List.mem_append.mp hp with hmem | hnew
    · obtain ⟨k, hk, hpk⟩ := ih p hmem
      refine ⟨k, ?_, hpk⟩
      simp only [List.length_append, List.length_cons, List.length_nil]
      omega
    · have hp' : p.patientId = genPatientId db.length := by
        have := List.mem_singleton.mp hnew
        rw [this]
      refine ⟨db.length, ?_, hp'⟩
      simp only [List.length_append, List.length_cons, List.length_nil]
      omega

/-- C1: on every (sequentially) reachable state of the patients table,
`createPatient` reads the current total count `n`, generates the id
`"MW"` followed by `n + 1` zero-padded to six decimal digits (count 41
yields `"MW000042"`), inserts the supplied data together with that id, and
the generated id differs from the `patientId` of every existing row. -/
theorem createPatient_id_generation_unique (db : List Patient)
    (h : ReachablePatients db) (data : InsertPatient) (freshId : String) (now : Nat) :
    (createPatient data db freshId now).1.patientId = genPatientId (getPatientsCount db)
    ∧ (createPatient data db freshId now).2 = db ++ [(createPatient data db freshId now).1]
    ∧ (createPatient data db freshId now).1.name = data.name
    ∧ (createPatient data db freshId now).1.district = data.district
    ∧ genPatientId 41 = "MW000042"
    ∧ (getPatientsCount db + 1 < 10 ^ 6 →
        ((genPatientId (getPatientsCount db)).data.drop 2).length = 6
        ∧ (∀ c ∈ (genPatientId (getPatientsCount db)).data.drop 2, c.isDigit = true)
        ∧ decodeDigits ((genPatientId (getPatientsCount db)).data.drop 2)
            = getPatientsCount db + 1
        ∧ (genPatientId (getPatientsCount db)).data
            = 'M' :: 'W' :: (genPatientId (getPatientsCount db)).data.drop 2)
    ∧ (createPatient data db freshId now).1.patientId ∉ db.map Patient.patientId := by
  refine ⟨rfl, rfl, rfl, rfl, by decide, genPatientId_shape (getPatientsCount db), ?_⟩
  intro hmem
  obtain ⟨p, hp, hpid⟩ := List.mem_map.mp hmem
  obtain ⟨k, hk, hpk⟩ := reachable_patientId_indexed db h p hp
  have : (createPatient data db freshId now).1.patientId = genPatientId db.length := rfl
  rw [this] at hpid
  have hkk : k = db.length := genPatientId_injective k db.length (hpk.symm.trans hpid)
  omega

theorem createPatient_id_generation_unique_witness :
    (createPatient sampleInsert [] "uuid-1" 5).1.patientId = genPatientId 0
    ∧ genPatientId 41 = "MW000042"
    ∧ (createPatient sampleInsert [] "uuid-1" 5).1.patientId
        ∉ ([] : List Patient).map Patient.patientId
    ∧ ((genPatientId 0).data.drop 2).length = 6
    ∧ genPatientId 0 = "MW000001" := by
  have h := createPatient_id_generation_unique [] ReachablePatients.nil
    sampleInsert "uuid-1" 5
  exact ⟨h.1, h.2.2.2.2.1, h.2.2.2.2.2.2,
    (h.2.2.2.2.2.1 (by decide)).1, by decide⟩

/-- With nonempty supplied filters, the conditions pushed by `getPatients`
coincide with the spec's per-filter predicate. -/
theorem patientCond_eq_claim (f : PatientsFilters) (p : Patient)
    (hd : ∀ d, f.district = some d → d ≠ "")
    (hh : ∀ s, f.healthStatus = some s → s ≠ "")
    (hs : ∀ s, f.search = some s → s ≠ "") :
    patientCond f p = claimPatientPred f p := by
  have h1 : (!truthyS f.district || strContains p.district (f.district.getD ""))
      = f.district.elim true (fun d => strContains p.district d) :=
    guard_eq_elim f.district hd _
  have h2 : (!truthyS f.healthStatus
        || (healthStatusStr p.healthStatus == f.healthStatus.getD ""))
      = f.healthStatus.elim true (fun s => healthStatusStr p.healthStatus == s) :=
    guard_eq_elim f.healthStatus hh _
  have h3 : (!truthyS f.search
        || (ilikeContains p.name (f.search.getD "")
            || ilikeContains p.patientId (f.search.getD "")))
      = f.search.elim true
          (fun s => ilikeContains p.name s || ilikeContains p.patientId s) :=
    guard_eq_elim f.search hs
      (fun s => ilikeContains p.name s || ilikeContains p.patientId s)
  unfold patientCond claimPatientPred
  rw [h1, h2, h3]

/-- C2: with no pagination and nonempty supplied filters, `getPatients`
returns exactly (a permutation of) the rows satisfying the conjunction of
the district-substring, exact-healthStatus and case-insensitive-search
predicates, ordered by `registeredAt` descending. -/
theorem getPatients_filter_and_order (f : PatientsFilters) (db : List Patient)
    (hl : f.limit = none) (ho : f.offset = none)
    (hd : ∀ d, f.district = some d → d ≠ "")
    (hh : ∀ s, f.healthStatus = some s → s ≠ "")
    (hs : ∀ s, f.search = some s → s ≠ "") :
    (getPatients f db).Perm (db.filter (claimPatientPred f))
    ∧ List.Pairwise (fun a b => b.registeredAt ≤ a.registeredAt) (getPatients f db) := by
  have hres : getPatients f db
      = sortDesc Patient.registeredAt (db.filter (patientCond f)) := by
    simp [getPatients, hl, ho, truthyN]
  have hfil : db.filter (patientCond f) = db.filter (claimPatientPred f) :=
    List.filter_congr (fun p _ => patientCond_eq_claim f p hd hh hs)
  constructor
  · rw [hres, hfil]
    exact sortDesc_perm _ _
  · rw [hres]
    exact sortDesc_sorted _ _

theorem getPatients_filter_and_order_witness :
    (getPatients sampleFilters [samplePatient, samplePatientB]).Perm
        (List.filter (claimPatientPred sampleFilters) [samplePatient, samplePatientB])
    ∧ List.Pairwise (fun a b => b.registeredAt ≤ a.registeredAt)
        (getPatients sampleFilters [samplePatient, samplePatientB]) :=
  getPatients_filter_and_order sampleFilters [samplePatient, samplePatientB]
    rfl rfl
    (by intro d h0; injection h0 with h1; subst h1; decide)
    (by intro s h0; exact Option.noConfusion h0)
    (by intro s h0; exact Option.noConfusion h0)

/-- C9: a filter supplied with a falsy value (empty string for
district/search, `0` for limit/offset) is treated exactly like an omitted
filter. -/
theorem getPatients_falsy_filters_no_constraint (f : PatientsFilters) (db : List Patient) :
    getPatients { f with district := some "" } db
        = getPatients { f with district := none } db
    ∧ getPatients { f with search := some "" } db
        = getPatients { f with search := none } db
    ∧ getPatients { f with limit := some 0 } db
        = getPatients { f with limit := none } db
    ∧ getPatients { f with offset := some 0 } db
        = getPatients { f with offset := none } db :=
  ⟨rfl, rfl, rfl, rfl⟩

/-- C3 counterexample: an update directed at an id absent from the table
does not produce a 500 response.  `updatePatient` returns the destructuring
of an empty `RETURNING` list (an absent value) without throwing, so the
route's catch-branch never runs and the response status is 200. -/
theorem putPatient_missing_id_returns_200 :
    (updatePatient "missing" sampleUpdate []).1 = none
    ∧ (putPatientRoute "missing" sampleUpdate []).1.status = 200
    ∧ ¬((putPatientRoute "missing" sampleUpdate []).1.status = 500) := by
  decide

/-- C3 (amended): for an id absent from the table, `updatePatient` returns
an absent value (no updated record) without raising, and the PUT route
responds 200 with an empty body, leaving the table unchanged; for the first
row matching the id, `updatePatient` merges the supplied fields and returns
the updated record, which the route sends with status 200. -/
theorem updatePatient_missing_id_behavior (id : String) (u : PatientUpdate)
    (db : List Patient) :
    ((∀ p ∈ db, p.id ≠ id) →
      (updatePatient id u db).1 = none
      ∧ putPatientRoute id u db = ({ status := 200, body := ApiBody.empty }, db))
    ∧ (∀ p, db.find? (fun q => q.id == id) = some p →
      (updatePatient id u db).1 = some (applyPatientUpdate u p)
      ∧ (putPatientRoute id u db).1
          = { status := 200, body := ApiBody.patientBody (applyPatientUpdate u p) }) := by
  constructor
  · intro hmiss
    have hfind : db.find? (fun q => q.id == id) = none :=
      List.find?_eq_none.mpr (fun p hp => by
        simp only [beq_iff_eq]
        exact hmiss p hp)
    have hmap : db.map (fun p => if p.id == id then applyPatientUpdate u p else p) = db := by
      have h1 : db.map (fun p => if p.id == id then applyPatientUpdate u p else p)
          = db.map (fun p => p) :=
        List.map_congr_left (fun p hp => by
          have hb : (p.id == id) = false := beq_eq_false_iff_ne.mpr (hmiss p hp)
          simp [hb])
      rw [h1]
      simp
    have hupd : updatePatient id u db = (none, db) := by
      unfold updatePatient
      rw [hfind, hmap]
      rfl
    refine ⟨?_, ?_⟩
    · rw [hupd]
    · unfold putPatientRoute
      rw [hupd]
  · intro p hfind
    refine ⟨?_, ?_⟩
    · simp [updatePatient, hfind]
    · simp [putPatientRoute, updatePatient, hfind]

theorem updatePatient_missing_id_behavior_witness :
    ((updatePatient "zzz" sampleUpdate [samplePatient]).1 = none
      ∧ putPatientRoute "zzz" sampleUpdate [samplePatient]
          = ({ status := 200, body := ApiBody.empty }, [samplePatient]))
    ∧ (updatePatient "a" sampleUpdate [samplePatient]).1
        = some (applyPatientUpdate sampleUpdate samplePatient) :=
  ⟨(updatePatient_missing_id_behavior "zzz" sampleUpdate [samplePatient]).1
      (by decide),
   ((updatePatient_missing_id_behavior "a" sampleUpdate [samplePatient]).2
      samplePatient (by decide)).1⟩

/-- C4: a POST body that fails `insertPatientSchema` makes the route answer
400 with the structured field-error list (one entry per violated field, not
just the first), and the patients table is untouched: the storage layer is
never invoked, so the row count is unchanged. -/
theorem postPatients_invalid_payload_rejected (raw : RawPatient) (db : List Patient)
    (freshId : String) (now : Nat) (es : List FieldError)
    (h : parseInsertPatient raw = .error es) :
    postPatientsRoute raw db freshId now
      = ({ status := 400, body := ApiBody.invalid "Invalid patient data" es }, db)
    ∧ (postPatientsRoute raw db freshId now).2.length = db.length
    ∧ es ≠ []
    ∧ es = patientFieldErrors raw
    ∧ (raw.name = none → { path := "name", message := "Required" } ∈ es) := by
  have hroute : postPatientsRoute raw db freshId now
      = ({ status := 400, body := ApiBody.invalid "Invalid patient data" es }, db) := by
    simp [postPatientsRoute, h]
  have hes : es = patientFieldErrors raw := by
    unfold parseInsertPatient at h
    by_cases he : (patientFieldErrors raw).isEmpty
    · rw [if_pos he] at h
      exact absurd h (by simp)
    · rw [if_neg he] at h
      have := Except.error.inj h
      exact this.symm
  have hne : es ≠ [] := by
    unfold parseInsertPatient at h
    by_cases he : (patientFieldErrors raw).isEmpty
    · rw [if_pos he] at h
      exact absurd h (by simp)
    · rw [if_neg he] at h
      intro hnil
      apply he
      have hpe : patientFieldErrors raw = es := Except.error.inj h
      rw [hpe, hnil]
      rfl
  refine ⟨hroute, by rw [hroute], hne, hes, ?_⟩
  intro hname
  rw [hes]
  unfold patientFieldErrors
  rw [hname]
  simp

theorem postPatients_invalid_payload_rejected_witness :
    postPatientsRoute rawEmpty [] "uuid-2" 3
      = ({ status := 400,
           body := ApiBody.invalid "Invalid patient data" (patientFieldErrors rawEmpty) }, [])
    ∧ patientFieldErrors rawEmpty ≠ []
    ∧ { path := "name", message := "Required" } ∈ patientFieldErrors rawEmpty := by
  have h := postPatients_invalid_payload_rejected rawEmpty [] "uuid-2" 3
    (patientFieldErrors rawEmpty) (by rfl)
  exact ⟨h.1, h.2.2.1, h.2.2.2.2 rfl⟩

/-- C10: the validator never inspects the system-generated keys `id`,
`patientId` and `registeredAt` of a POST body — supplying them neither
causes a validation error nor changes the parsed value (zod strips the
omitted keys) — and `createPatient` always stores the server-assigned uuid,
generated sequential id and registration timestamp. -/
theorem insertPatient_strips_system_fields (r : RawPatient)
    (idv pidv : Option String) (regv : Option Nat)
    (db : List Patient) (freshId : String) (now : Nat) :
    parseInsertPatient { r with id := idv, patientId := pidv, registeredAt := regv }
      = parseInsertPatient r
    ∧ (∀ data, parseInsertPatient r = .ok data →
        (createPatient data db freshId now).1.id = freshId
        ∧ (createPatient data db freshId now).1.patientId
            = genPatientId (getPatientsCount db)
        ∧ (createPatient data db freshId now).1.registeredAt = now) :=
  ⟨rfl, fun _ _ => ⟨rfl, rfl, rfl⟩⟩

theorem insertPatient_strips_system_fields_witness :
    parseInsertPatient
        { rawValid with
          id := some "attacker-id"
          patientId := some "MW999999"
          registeredAt := some 99 }
      = parseInsertPatient rawValid
    ∧ (createPatient sampleInsert [] "uuid-3" 7).1.id = "uuid-3"
    ∧ (createPatient sampleInsert [] "uuid-3" 7).1.patientId = genPatientId 0
    ∧ (createPatient sampleInsert [] "uuid-3" 7).1.registeredAt = 7 := by
  have h := insertPatient_strips_system_fields rawValid
    (some "attacker-id") (some "MW999999") (some 99) [] "uuid-3" 7
  have h2 := h.2 sampleInsert (by rfl)
  exact ⟨h.1, h2.1, h2.2.1, h2.2.2⟩

/-- With nonempty supplied filters, the conditions pushed by
`getDiseaseCases` coincide with the spec's per-filter predicate on joined
rows. -/
theorem caseCond_eq_claim (f : CaseFilters) (row : DiseaseCaseRow)
    (h1 : ∀ v, f.patientId = some v → v ≠ "")
    (h2 : ∀ v, f.diseaseId = some v → v ≠ "")
    (h3 : ∀ v, f.district = some v → v ≠ "")
    (h4 : ∀ v, f.status = some v → v ≠ "") :
    caseCond f row = claimCaseCond f row := by
  have e1 : (!truthyS f.patientId || (row.patientId == f.patientId.getD ""))
      = f.patientId.elim true (fun v => row.patientId == v) :=
    guard_eq_elim f.patientId h1 (fun v => row.patientId == v)
  have e2 : (!truthyS f.diseaseId || (row.diseaseId == f.diseaseId.getD ""))
      = f.diseaseId.elim true (fun v => row.diseaseId == v) :=
    guard_eq_elim f.diseaseId h2 (fun v => row.diseaseId == v)
  have e3 : (!truthyS f.district
        || row.patientDistrict.elim false (fun d => strContains d (f.district.getD "")))
      = f.district.elim true
          (fun v => row.patientDistrict.elim false (fun d => strContains d v)) :=
    guard_eq_elim f.district h3
      (fun v => row.patientDistrict.elim false (fun d => strContains d v))
  have e4 : (!truthyS f.status || (row.status == f.status.getD ""))
      = f.status.elim true (fun v => row.status == v) :=
    guard_eq_elim f.status h4 (fun v => row.status == v)
  unfold caseCond claimCaseCond
  rw [e1, e2, e3, e4]

/-- C5: `getDiseaseCases` keeps every case row even when its patient or
disease reference is dangling (the denormalized columns are null instead of
the row being dropped), orders by `reportedAt` descending, and filters with
exact matches on patientId/diseaseId/status and a substring match on the
joined patient district. -/
theorem getDiseaseCases_left_join_semantics (f : CaseFilters) (ps : List Patient)
    (ds : List Disease) (cs : List DiseaseCase)
    (h1 : ∀ v, f.patientId = some v → v ≠ "")
    (h2 : ∀ v, f.diseaseId = some v → v ≠ "")
    (h3 : ∀ v, f.district = some v → v ≠ "")
    (h4 : ∀ v, f.status = some v → v ≠ "") :
    (getDiseaseCases f ps ds cs).Perm
        ((cs.map (joinCaseRow ps ds)).filter (claimCaseCond f))
    ∧ List.Pairwise (fun a b => b.reportedAt ≤ a.reportedAt) (getDiseaseCases f ps ds cs)
    ∧ (∀ c ∈ cs,
        ((∀ p ∈ ps, p.id ≠ c.patientId) →
          (joinCaseRow ps ds c).patientName = none
          ∧ (joinCaseRow ps ds c).patientDistrict = none)
        ∧ ((∀ d ∈ ds, d.id ≠ c.diseaseId) → (joinCaseRow ps ds c).diseaseName = none))
    ∧ (getDiseaseCases {} ps ds cs).Perm (cs.map (joinCaseRow ps ds)) := by
  have hfil : (cs.map (joinCaseRow ps ds)).filter (caseCond f)
      = (cs.map (joinCaseRow ps ds)).filter (claimCaseCond f) :=
    List.filter_congr (fun row _ => caseCond_eq_claim f row h1 h2 h3 h4)
  refine ⟨?_, sortDesc_sorted _ _, ?_, ?_⟩
  · unfold getDiseaseCases
    rw [hfil]
    exact sortDesc_perm _ _
  · intro c hc
    constructor
    · intro hnop
      have hfind : ps.find? (fun p => p.id == c.patientId) = none :=
        List.find?_eq_none.mpr (fun p hp => by
          simp only [beq_iff_eq]
          exact hnop p hp)
      constructor <;> simp [joinCaseRow, hfind]
    · intro hnod
      have hfind : ds.find? (fun d => d.id == c.diseaseId) = none :=
        List.find?_eq_none.mpr (fun d hd => by
          simp only [beq_iff_eq]
          exact hnod d hd)
      simp [joinCaseRow, hfind]
  · have hall : (cs.map (joinCaseRow ps ds)).filter (caseCond {})
        = cs.map (joinCaseRow ps ds) := by
      have h := @List.filter_congr _ (caseCond {}) (fun _ => true)
        (cs.map (joinCaseRow ps ds)) (fun row _ => rfl)
      rw [h, List.filter_true]
    unfold getDiseaseCases
    rw [hall]
    exact sortDesc_perm _ _

theorem getDiseaseCases_left_join_semantics_witness :
    ((joinCaseRow [] [] sampleCase).patientName = none
      ∧ (joinCaseRow [] [] sampleCase).patientDistrict = none)
    ∧ (joinCaseRow [] [] sampleCase).diseaseName = none
    ∧ (getDiseaseCases {} [] [] [sampleCase]).Perm
        ([sampleCase].map (joinCaseRow [] [])) := by
  have h := getDiseaseCases_left_join_semantics {} [] [] [sampleCase]
    (fun v hv => Option.noConfusion hv) (fun v hv => Option.noConfusion hv)
    (fun v hv => Option.noConfusion hv) (fun v hv => Option.noConfusion hv)
  have hc := h.2.2.1 sampleCase (by simp)
  exact ⟨hc.1 (by intro p hp; simp at hp),
    hc.2 (by intro d hd; simp at hd), h.2.2.2⟩

/-- C6: `getDiseaseStats` yields exactly one `{name, count}` row per
disease (zero-case diseases included with count 0, since the count is the
number of referencing cases), ordered by count descending. -/
theorem getDiseaseStats_complete_and_sorted (ds : List Disease) (cs : List DiseaseCase) :
    (getDiseaseStats ds cs).Perm (ds.map (diseaseStatOf cs))
    ∧ (getDiseaseStats ds cs).length = ds.length
    ∧ (∀ d ∈ ds, diseaseStatOf cs d ∈ getDiseaseStats ds cs)
    ∧ List.Pairwise (fun a b => b.count ≤ a.count) (getDiseaseStats ds cs) := by
  refine ⟨sortDesc_perm _ _, ?_, ?_, sortDesc_sorted _ _⟩
  · unfold getDiseaseStats
    rw [(sortDesc_perm DiseaseStat.count (ds.map (diseaseStatOf cs))).length_eq,
      List.length_map]
  · intro d hd
    unfold getDiseaseStats
    rw [sortDesc_mem]
    exact List.mem_map_of_mem _ hd

theorem getDiseaseStats_complete_and_sorted_witness :
    (getDiseaseStats [sampleDisease] [sampleCase]).Perm
        ([sampleDisease].map (diseaseStatOf [sampleCase]))
    ∧ diseaseStatOf [sampleCase] sampleDisease
        ∈ getDiseaseStats [sampleDisease] [sampleCase] := by
  have h := getDiseaseStats_complete_and_sorted [sampleDisease] [sampleCase]
  exact ⟨h.1, h.2.2.1 sampleDisease (by simp)⟩

/-- C7: every single-resource lookup reports absence as an explicit `none`
(never an exception), and the patient detail route translates absence into
a 404 with a message body and presence into a 200 with the record. -/
theorem lookup_absent_explicit_and_404 (id username : String) (db : List Patient)
    (us : List User) (rs : List HealthRecord) :
    (getPatientById id db = none ↔ ∀ p ∈ db, p.id ≠ id)
    ∧ (getUser id us = none ↔ ∀ u ∈ us, u.id ≠ id)
    ∧ (getUserByUsername username us = none ↔ ∀ u ∈ us, u.username ≠ username)
    ∧ (getHealthRecordById id rs = none ↔ ∀ r ∈ rs, r.id ≠ id)
    ∧ (getPatientById id db = none →
        getPatientByIdRoute id db
          = { status := 404, body := ApiBody.msg "Patient not found" })
    ∧ (∀ p, getPatientById id db = some p →
        getPatientByIdRoute id db
          = { status := 200, body := ApiBody.patientBody p }) := by
  refine ⟨?_, ?_, ?_, ?_, ?_, ?_⟩
  · simp [getPatientById, List.find?_eq_none]
  · simp [getUser, List.find?_eq_none]
  · simp [getUserByUsername, List.find?_eq_none]
  · simp [getHealthRecordById, List.find?_eq_none]
  · intro hnone
    simp [getPatientByIdRoute, hnone]
  · intro p hsome
    simp [getPatientByIdRoute, hsome]

theorem lookup_absent_explicit_and_404_witness :
    getPatientById "zzz" [samplePatient] = none
    ∧ getPatientByIdRoute "zzz" [samplePatient]
        = { status := 404, body := ApiBody.msg "Patient not found" }
    ∧ getPatientByIdRoute "a" [samplePatient]
        = { status := 200, body := ApiBody.patientBody samplePatient } := by
  have h := lookup_absent_explicit_and_404 "zzz" "meera" [samplePatient]
    [sampleUser] [sampleRecord]
  have h2 := lookup_absent_explicit_and_404 "a" "meera" [samplePatient]
    [sampleUser] [sampleRecord]
  refine ⟨h.1.mpr (by decide), h.2.2.2.2.1 (h.1.mpr (by decide)), ?_⟩
  exact h2.2.2.2.2.2 samplePatient (by decide)

/-- C8: `getHealthAlerts` with `activeOnly` returns exactly the alerts with
`isActive = true`, without it returns all alerts, both ordered by
`createdAt` descending; the route passes `activeOnly = true` precisely when
the query parameter is the literal string true. -/
theorem getHealthAlerts_active_filter (db : List HealthAlert) (q : Option String) :
    (getHealthAlerts true db).Perm (db.filter (fun a => a.isActive == some true))
    ∧ (getHealthAlerts false db).Perm db
    ∧ List.Pairwise (fun a b => b.createdAt ≤ a.createdAt) (getHealthAlerts true db)
    ∧ List.Pairwise (fun a b => b.createdAt ≤ a.createdAt) (getHealthAlerts false db)
    ∧ (q = some "true" → getHealthAlertsRoute q db = getHealthAlerts true db)
    ∧ (q ≠ some "true" → getHealthAlertsRoute q db = getHealthAlerts false db) := by
  refine ⟨sortDesc_perm _ _, sortDesc_perm _ _, sortDesc_sorted _ _,
    sortDesc_sorted _ _, ?_, ?_⟩
  · intro hq
    simp [getHealthAlertsRoute, hq]
  · intro hq
    have hb : (q == some "true") = false := beq_eq_false_iff_ne.mpr hq
    simp [getHealthAlertsRoute, hb]

theorem getHealthAlerts_active_filter_witness :
    (getHealthAlerts true [sampleAlert, sampleAlertInactive]).Perm
        (List.filter (fun a => a.isActive == some true)
          [sampleAlert, sampleAlertInactive])
    ∧ getHealthAlertsRoute (some "true") [sampleAlert, sampleAlertInactive]
        = getHealthAlerts true [sampleAlert, sampleAlertInactive]
    ∧ getHealthAlertsRoute none [sampleAlert, sampleAlertInactive]
        = getHealthAlerts false [sampleAlert, sampleAlertInactive] := by
  have h := getHealthAlerts_active_filter [sampleAlert, sampleAlertInactive]
    (some "true")
  have h2 := getHealthAlerts_active_filter [sampleAlert, sampleAlertInactive] none
  exact ⟨h.1, h.2.2.2.2.1 rfl, h2.2.2.2.2.2 (by decide)⟩
